import Mathlib

/-
Verification of the Pico Driver IO web server (src/main.py) against its
natural-language specification.

The embedding is shallow: Python strings are modelled as lists of
characters, the imperative GPIO / socket side effects are modelled as
explicit event traces, the network is an explicit oracle (a function from
connect parameters to an outcome), and per-request file reads thread the
current configuration-file contents as an explicit argument, mirroring the
fact that src/main.py re-opens driverio_config.txt inside
verify_passcode and handle_status on every request.  Fallible Python
operations (list indexing that can raise IndexError) are modelled with
Option and Except.  Hard-coded time durations are expressed in
milliseconds (1.0 s becomes 1000, 0.3 s becomes 300).
-/

/-- A Python string, modelled as a list of characters. -/
abbrev Str := List Char

/-! ## Python string primitives

These model the Python `str` operations used by src/main.py:
`s.startswith(p)`, `sub in s`, `s.strip()`, `s.split(sep)`,
`s.split(sep, 1)` and indexing `l[i]` (which can raise IndexError,
hence Option). -/

/-- Model of Python `s.startswith(p)`: boolean prefix test. -/
def pyStartsWith (p s : Str) : Bool :=
  List.isPrefixOf p s

/-- Model of Python `sub in s`: `sub` occurs as a contiguous substring
of `s`.  Matches Python semantics: the empty string is in every string. -/
def pyContains (sub : Str) : Str → Bool
  | [] => sub.isEmpty
  | c :: rest => List.isPrefixOf sub (c :: rest) || pyContains sub rest

/-- Model of Python `s.strip()`: remove leading and trailing whitespace. -/
def pyStrip (s : Str) : Str :=
  ((s.dropWhile Char.isWhitespace).reverse.dropWhile Char.isWhitespace).reverse

/-- Worker for `pySplit`.  Scans the input left to right; `skip` counts
separator characters still to be consumed after a match (so that the
recursion is structural on the scanned list); `acc` holds the current
segment reversed.  Leftmost-first matching, exactly as Python split. -/
def pySplitGo (sep : Str) : Str → Nat → Str → List Str
  | [], _, acc => [acc.reverse]
  | _ :: rest, skip + 1, acc => pySplitGo sep rest skip acc
  | c :: rest, 0, acc =>
    if List.isPrefixOf sep (c :: rest) then
      acc.reverse :: pySplitGo sep rest (sep.length - 1) []
    else
      pySplitGo sep rest 0 (c :: acc)

/-- Model of Python `s.split(sep)` for a non-empty separator: the list of
segments between leftmost-first occurrences of `sep`, keeping empty
segments.  Python raises ValueError on an empty separator; all separators
used by src/main.py are non-empty literals, and we guard that case. -/
def pySplit (sep s : Str) : List Str :=
  if sep.isEmpty then [s] else pySplitGo sep s 0 []

/-- Model of Python `s.split(sep, 1)` restricted to the first occurrence:
the pair (before, after) of the first occurrence of `sep`, or none when
`sep` does not occur.  Used for `line.split('=', 1)` in
read_driverio_config, which is guarded by an `'=' in line` test. -/
def splitFirst (sep : Str) : Str → Option (Str × Str)
  | [] => none
  | c :: rest =>
    if List.isPrefixOf sep (c :: rest) then
      some ([], (c :: rest).drop sep.length)
    else
      match splitFirst sep rest with
      | some (pre, post) => some (c :: pre, post)
      | none => none

/-- Model of Python list/str indexing `l[i]`: some element, or none where
Python would raise IndexError. -/
def pyIndex (l : List α) (i : Nat) : Option α :=
  l[i]?

/-! ## Configuration (read_driverio_config, src/main.py lines 52-81)

The configuration file is modelled as a list of lines (List Str).
src/main.py opens and parses this file on every call of verify_passcode
and handle_status, so all request-handling definitions below take the
file contents current at request time as an explicit argument. -/

/-- The parsed Driver IO configuration: the Python dict built by
read_driverio_config, with one optional field per recognized key. -/
structure Config where
  ip : Option Str
  user : Option Str
  pass : Option Str
  passcode : Option Str
deriving DecidableEq, Repr

/-- One iteration of the line loop of read_driverio_config: strip the
line, skip empty lines and comment lines, and on a line containing an
equals sign split at its first occurrence and assign the recognized key. -/
def processConfigLine (config : Config) (rawLine : Str) : Config :=
  let line := pyStrip rawLine
  if line.isEmpty then config
  else if pyStartsWith ("#".toList) line then config
  else if pyContains ("=".toList) line then
    match splitFirst ("=".toList) line with
    | some (key, value) =>
      if key = "DRIVERIO_IP".toList then { config with ip := some value }
      else if key = "DRIVERIO_USER".toList then { config with user := some value }
      else if key = "DRIVERIO_PASS".toList then { config with pass := some value }
      else if key = "PASSCODE".toList then { config with passcode := some value }
      else config
    | none => config
  else config

/-- Model of read_driverio_config (src/main.py lines 52-81): fold the
line parser over the file contents, starting from the empty dict. -/
def read_driverio_config (file : List Str) : Config :=
  file.foldl processConfigLine ⟨none, none, none, none⟩

/-! ## Passcode gate (verify_passcode, src/main.py lines 359-381) -/

/-- Model of verify_passcode: re-reads the configuration from the
current file contents, fails open when no passcode is configured or the
configured passcode is empty, otherwise compares the provided token (None
when absent) for exact equality with the configured passcode. -/
def verify_passcode (file : List Str) (provided_passcode : Option Str) : Bool :=
  let config := read_driverio_config file
  let correct_passcode := config.passcode.getD []
  if correct_passcode.isEmpty then
    true
  else if provided_passcode = some correct_passcode then
    true
  else
    false

/-! ## GPIO and network effects

The imperative side effects of the handlers are modelled as explicit
event traces.  Durations are in milliseconds: the Python literals 1.0 s
and 0.3 s become 1000 and 300. -/

/-- One observable side effect of a request handler: GPIO pin
configuration as output, a pin level write, a blocking sleep, or a
connectivity probe (socket connect attempt to ip, port with a timeout
in seconds). -/
inductive Effect
  | pinInit (pin : Nat)
  | pinSet (pin : Nat) (value : Nat)
  | sleepMs (ms : Nat)
  | probe (ip : Str) (port : Nat) (timeoutSec : Nat)
deriving DecidableEq, Repr

/-- GPIO pin 8, wired to the Pi 4 BOOT/EEPROM pins (src/main.py line 47). -/
def BOOT_PIN : Nat := 8

/-- GPIO pin 9, wired to the Pi 4 RUN/Reset pins (src/main.py line 49). -/
def RUN_PIN : Nat := 9

/-- Model of handle_boot (src/main.py lines 384-396): configure the BOOT
pin as output, drive it high, sleep 1.0 s, drive it low.  Straight-line
code: the trace is a constant. -/
def handle_boot : List Effect :=
  [Effect.pinInit BOOT_PIN, Effect.pinSet BOOT_PIN 1,
   Effect.sleepMs 1000, Effect.pinSet BOOT_PIN 0]

/-- Model of handle_reboot (src/main.py lines 399-411): configure the RUN
pin as output, drive it high, sleep 0.3 s, drive it low. -/
def handle_reboot : List Effect :=
  [Effect.pinInit RUN_PIN, Effect.pinSet RUN_PIN 1,
   Effect.sleepMs 300, Effect.pinSet RUN_PIN 0]

/-- Result of the Python socket connect_ex call: either it resolves with
an error code (0 means success) or it raises an exception. -/
inductive ConnectOutcome
  | ok (code : Int)
  | exn
deriving DecidableEq, Repr

/-- The network environment, an oracle: what a connect attempt to
(ip, port) under a given timeout (seconds) does at the moment the
request is handled. -/
structure NetEnv where
  connectEx : Str → Nat → Nat → ConnectOutcome

/-- Model of handle_status (src/main.py lines 414-455): re-read the
configuration; when no IP is configured (missing key or empty string,
both falsy in Python) return False without touching the network;
otherwise probe (ip, 22) with a 5 second timeout and report True exactly
when connect_ex returned 0; any exception is absorbed into False.  The
returned trace contains the probe attempt and never any pin event. -/
def handle_status (file : List Str) (env : NetEnv) : Bool × List Effect :=
  let config := read_driverio_config file
  let ip := config.ip.getD []
  if ip.isEmpty then
    (false, [])
  else
    match env.connectEx ip 22 5 with
    | ConnectOutcome.ok r => (r = 0, [Effect.probe ip 22 5])
    | ConnectOutcome.exn => (false, [Effect.probe ip 22 5])

/-! ## Request-line parsing and routing (start_server, src/main.py lines 479-519) -/

/-- The separator "\r\n" used to isolate the request line. -/
def crlf : Str := "\r\n".toList

/-- The separator of the passcode extraction. -/
def pcSep : Str := "?passcode=".toList

/-- The request line: element 0 of request.split("\r\n"), which always
exists because a split never yields an empty list. -/
def request_line_of (request : Str) : Str :=
  (pySplit crlf request).headD []

/-- Model of the passcode extraction (src/main.py lines 487-492) with its
possible IndexError made explicit: when the request line contains
"?passcode=", take element 1 of the split on it, then element 0 of that
segment split on a space; an out-of-range index is an error (in the
source it is swallowed by a bare except around just this extraction). -/
def extract_passcode_exc (request_line : Str) : Except Unit (Option Str) :=
  if pyContains pcSep request_line then
    match pyIndex (pySplit pcSep request_line) 1 with
    | some after =>
      match pyIndex (pySplit (" ".toList) after) 0 with
      | some tok => Except.ok (some tok)
      | none => Except.error ()
    | none => Except.error ()
  else
    Except.ok none

/-- The extracted passcode as the dispatcher sees it: the bare
`except: pass` in the source leaves the passcode as None on any failure. -/
def extract_passcode (request_line : Str) : Option Str :=
  match extract_passcode_exc request_line with
  | Except.ok p => p
  | Except.error _ => none

/-- The closed set of routes of the dispatcher. -/
inductive Route
  | boot
  | reboot
  | status
  | dashboard
deriving DecidableEq, Repr

/-- Model of the if/elif chain of src/main.py lines 494-516: the request
line is classified by literal prefix tests against "GET /boot",
"GET /reboot" and "GET /status" in that order, everything else falling
through to the dashboard. -/
def route (request_line : Str) : Route :=
  if pyStartsWith ("GET /boot".toList) request_line then Route.boot
  else if pyStartsWith ("GET /reboot".toList) request_line then Route.reboot
  else if pyStartsWith ("GET /status".toList) request_line then Route.status
  else Route.dashboard

/-- The response selected by the dispatcher: the dashboard page
(get_html_page) or an action response page (get_response_page) carrying
its action tag. -/
inductive Response
  | htmlPage
  | responsePage (action : Str)
deriving DecidableEq, Repr

/-- The branch bodies of the dispatcher (src/main.py lines 494-516),
given the request line: extract the passcode, classify the route, gate
privileged routes through verify_passcode, run the handler of an
authorized action, and pair the selected response with the trace of side
effects the handler performed. -/
def dispatch (file : List Str) (env : NetEnv) (request_line : Str) :
    Response × List Effect :=
  let passcode := extract_passcode request_line
  match route request_line with
  | Route.boot =>
    if verify_passcode file passcode then
      (Response.responsePage ("boot".toList), handle_boot)
    else
      (Response.responsePage ("unauthorized".toList), [])
  | Route.reboot =>
    if verify_passcode file passcode then
      (Response.responsePage ("reboot".toList), handle_reboot)
    else
      (Response.responsePage ("unauthorized".toList), [])
  | Route.status =>
    if verify_passcode file passcode then
      ((if (handle_status file env).1 then
          Response.responsePage ("status".toList)
        else
          Response.responsePage ("status_offline".toList)),
       (handle_status file env).2)
    else
      (Response.responsePage ("unauthorized".toList), [])
  | Route.dashboard => (Response.htmlPage, [])

/-- The body of the inner try of src/main.py lines 482-516, with its
possible IndexError made explicit: element 0 of request.split("\r\n") is
taken (an out-of-range index would be an error caught by the
`except (IndexError, ValueError)` clause), then the dispatcher runs. -/
def parse_block (file : List Str) (env : NetEnv) (request : Str) :
    Except Unit (Response × List Effect) :=
  match pyIndex (pySplit crlf request) 0 with
  | none => Except.error ()
  | some request_line => Except.ok (dispatch file env request_line)

/-- One decoded request processed end to end, including the
`except (IndexError, ValueError)` fallback of src/main.py lines 517-518
that renders the dashboard page. -/
def process_request (file : List Str) (env : NetEnv) (request : Str) :
    Response × List Effect :=
  match parse_block file env request with
  | Except.ok r => r
  | Except.error _ => (Response.htmlPage, [])

/-! ## Rendered pages and wire responses

The HTML bodies of get_html_page and get_response_page are large constant
markup strings; the claims under verification depend only on which page
is selected and on the HTTP header line, so the bodies are abbreviated to
short tag-carrying stand-ins here. -/

/-- Model of get_html_page (src/main.py lines 151-268): the dashboard
document.  Body text abbreviated; no claim depends on it. -/
def get_html_page : Str :=
  "<!DOCTYPE html><html><body>BSR Driver IO Remote Control dashboard</body></html>".toList

/-- Model of get_response_page (src/main.py lines 271-356): the action
response document carrying its action tag and the 3 second auto-redirect.
Body text abbreviated; no claim depends on it. -/
def get_response_page (action : Str) : Str :=
  ("<!DOCTYPE html><html><head><meta http-equiv=refresh content=3;url=/></head><body>".toList)
    ++ action ++ ("</body></html>".toList)

/-- Render the selected response value into its HTML document. -/
def render : Response → Str
  | Response.htmlPage => get_html_page
  | Response.responsePage action => get_response_page action

/-- The fixed response header of src/main.py line 521: the only status
line and headers the server ever emits. -/
def HTTP_HEADER : Str :=
  "HTTP/1.1 200 OK\r\nContent-Type: text/html\r\nConnection: close\r\n\r\n".toList

/-! ## UTF-8 decoding

Model of Python bytes.decode("utf-8") in its default strict mode
(RFC 3629): rejects stray continuation bytes, overlong encodings,
surrogate code points and code points above U+10FFFF.  This is library
behaviour, not repository code; it is needed because src/main.py decodes
the received bytes before any parsing, and a decode failure propagates to
the per-connection exception handler. -/

/-- Is the byte a UTF-8 continuation byte (0x80-0xBF)? -/
def isCont (b : Nat) : Bool :=
  0x80 ≤ b && b ≤ 0xBF

/-- Strict UTF-8 decoding of a byte list into characters; none on any
encoding error, as Python raises UnicodeDecodeError. -/
def utf8Decode : List Nat → Option Str
  | [] => some []
  | b :: bs =>
    if b ≤ 0x7F then
      (utf8Decode bs).map (fun s => Char.ofNat b :: s)
    else if b < 0xC2 then
      none
    else if b ≤ 0xDF then
      match bs with
      | b1 :: bs1 =>
        if isCont b1 then
          (utf8Decode bs1).map
            (fun s => Char.ofNat ((b - 0xC0) * 0x40 + (b1 - 0x80)) :: s)
        else none
      | [] => none
    else if b ≤ 0xEF then
      match bs with
      | b1 :: b2 :: bs2 =>
        if (if b = 0xE0 then 0xA0 ≤ b1 && b1 ≤ 0xBF
            else if b = 0xED then 0x80 ≤ b1 && b1 ≤ 0x9F
            else isCont b1) && isCont b2 then
          (utf8Decode bs2).map
            (fun s => Char.ofNat ((b - 0xE0) * 0x1000 + (b1 - 0x80) * 0x40 + (b2 - 0x80)) :: s)
        else none
      | _ => none
    else if b ≤ 0xF4 then
      match bs with
      | b1 :: b2 :: b3 :: bs3 =>
        if (if b = 0xF0 then 0x90 ≤ b1 && b1 ≤ 0xBF
            else if b = 0xF4 then 0x80 ≤ b1 && b1 ≤ 0x8F
            else isCont b1) && isCont b2 && isCont b3 then
          (utf8Decode bs3).map
            (fun s => Char.ofNat ((b - 0xF0) * 0x40000 + (b1 - 0x80) * 0x1000
              + (b2 - 0x80) * 0x40 + (b3 - 0x80)) :: s)
        else none
      | _ => none
    else
      none

/-! ## The accept loop (start_server, src/main.py lines 474-531)

One iteration of the while-True loop is modelled as a function of the
connection event the outside world supplies: the accept call may raise,
the recv call may raise, or a byte buffer arrives and the later sendall
either succeeds or raises.  Whatever the body of the loop does, the
`except Exception` clause at lines 525-531 absorbs the failure, closes
the client best-effort, and the loop continues; nothing in the loop ever
closes the listening socket. -/

/-- What the recv of an accepted connection yields: an exception, or a
byte buffer together with whether the later sendall succeeds. -/
inductive RecvResult
  | recvFail
  | bytes (bs : List Nat) (sendOk : Bool)

/-- One event at the accept loop: the accept call raises, or a
connection is accepted with the given recv behaviour. -/
inductive ConnEvent
  | acceptFail
  | conn (r : RecvResult)

/-- The observable record of one loop iteration. -/
structure StepOut where
  continues : Bool
  serverSocketClosed : Bool
  clientOpened : Bool
  clientClosed : Bool
  responded : Option Str

/-- Model of one iteration of the accept loop: decode the received
bytes, process the request, and send the fixed header plus the rendered
page; any exception (accept, recv, decode, send) falls to the
per-connection except clause, which closes the client best-effort and
lets the loop continue. -/
def serve_step (file : List Str) (env : NetEnv) : ConnEvent → StepOut
  | ConnEvent.acceptFail =>
    ⟨true, false, false, false, none⟩
  | ConnEvent.conn RecvResult.recvFail =>
    ⟨true, false, true, true, none⟩
  | ConnEvent.conn (RecvResult.bytes bs sendOk) =>
    match utf8Decode bs with
    | none => ⟨true, false, true, true, none⟩
    | some request =>
      if sendOk then
        ⟨true, false, true, true,
         some (HTTP_HEADER ++ render (process_request file env request).1)⟩
      else
        ⟨true, false, true, true, none⟩

/-- The accept loop over a finite schedule of connection events: one
StepOut per event, in order.  The loop itself never terminates; a finite
schedule observes a finite window of it. -/
def run_server (file : List Str) (env : NetEnv) (evs : List ConnEvent) : List StepOut :=
  evs.map (serve_step file env)

/-! ## Vocabulary used by theorem statements -/

/-- Is an effect a GPIO pin mutation (configuration or level write)? -/
def isPinEffect : Effect → Bool
  | Effect.pinInit _ => true
  | Effect.pinSet _ _ => true
  | Effect.sleepMs _ => false
  | Effect.probe _ _ _ => false

/-- The last level written to the given pin in a trace, if any. -/
def lastPinWrite (trace : List Effect) (pin : Nat) : Option Nat :=
  (trace.filterMap (fun e =>
    match e with
    | Effect.pinSet p v => if p = pin then some v else none
    | _ => none)).getLast?

/-- The reachability condition of the status check: an IP is configured
and non-empty, and the connect attempt to it on port 22 under the
5 second timeout resolves with code 0. -/
def onlineCond (file : List Str) (env : NetEnv) : Prop :=
  (read_driverio_config file).ip.getD [] ≠ []
    ∧ env.connectEx ((read_driverio_config file).ip.getD []) 22 5 = ConnectOutcome.ok 0

/-- Boolean success test of an Except value. -/
def exceptOk : Except Unit α → Bool
  | Except.ok _ => true
  | Except.error _ => false

/-- A network environment on which every connect attempt raises; used as
a concrete environment by witnesses. -/
def netEnvExn : NetEnv :=
  ⟨fun _ _ _ => ConnectOutcome.exn⟩

/-- A network environment on which every connect attempt succeeds with
code 0; used as a concrete environment by witnesses. -/
def netEnvOk : NetEnv :=
  ⟨fun _ _ _ => ConnectOutcome.ok 0⟩

/-! ## Helper lemmas on the string primitives -/

/-- A split worker result is never the empty list. -/
theorem pySplitGo_ne_nil (sep : Str) :
    ∀ (l : Str) (skip : Nat) (acc : Str), pySplitGo sep l skip acc ≠ [] := by
  intro l
  induction l with
  | nil => intro skip acc; simp [pySplitGo]
  | cons c rest ih =>
    intro skip acc
    match skip with
    | skip + 1 => simpa [pySplitGo] using ih skip acc
    | 0 =>
      simp only [pySplitGo]
      split
      · simp
      · exact ih 0 (c :: acc)

/-- A Python split never yields an empty list. -/
theorem pySplit_ne_nil (sep s : Str) : pySplit sep s ≠ [] := by
  unfold pySplit
  split
  · simp
  · exact pySplitGo_ne_nil sep s 0 []

/-- Element 0 of a split always exists and is the head of the split. -/
theorem pyIndex_split_zero (sep s : Str) :
    pyIndex (pySplit sep s) 0 = some ((pySplit sep s).headD []) := by
  cases h : pySplit sep s with
  | nil => exact absurd h (pySplit_ne_nil sep s)
  | cons a t => simp [pyIndex]

/-- A list is a Boolean prefix of itself extended by anything. -/
theorem isPrefixOf_append_self (l m : Str) : List.isPrefixOf l (l ++ m) = true := by
  induction l with
  | nil => simp [List.isPrefixOf]
  | cons c rest ih => simp [List.isPrefixOf, ih]

/-- Containment is preserved by extending the string on the left. -/
theorem pyContains_cons (sub : Str) (c : Char) (l : Str)
    (h : pyContains sub l = true) : pyContains sub (c :: l) = true := by
  simp [pyContains, h]

/-- A string containing the separator literally does contain it. -/
theorem pyContains_append_sep (s0 : Char) (st a b : Str) :
    pyContains (s0 :: st) (a ++ ((s0 :: st) ++ b)) = true := by
  induction a with
  | nil =>
    have h1 : ([] : Str) ++ ((s0 :: st) ++ b) = s0 :: (st ++ b) := by simp
    rw [h1]
    have h2 : List.isPrefixOf (s0 :: st) (s0 :: (st ++ b)) = true :=
      isPrefixOf_append_self (s0 :: st) b
    simp [pyContains, h2]
  | cons c a' ih => exact pyContains_cons (s0 :: st) c (a' ++ ((s0 :: st) ++ b)) ih

/-- When the separator occurs in the string, the split has at least two
segments, so element 1 exists. -/
theorem pySplitGo_len_two (s0 : Char) (st : Str) :
    ∀ (l : Str) (acc : Str), pyContains (s0 :: st) l = true →
      2 ≤ (pySplitGo (s0 :: st) l 0 acc).length := by
  intro l
  induction l with
  | nil => intro acc h; simp [pyContains] at h
  | cons c rest ih =>
    intro acc h
    simp only [pySplitGo]
    split
    · rename_i hpre
      have hne := pySplitGo_ne_nil (s0 :: st) rest ((s0 :: st).length - 1) []
      cases hg : pySplitGo (s0 :: st) rest ((s0 :: st).length - 1) [] with
      | nil => exact absurd hg hne
      | cons x xs => simp [hg]
    · rename_i hpre
      apply ih (c :: acc)
      simp only [pyContains, Bool.or_eq_true] at h
      rcases h with h | h
      · exact absurd h (by simpa using hpre)
      · exact h

/-- Consuming a prefix of known length through the skip counter. -/
theorem pySplitGo_skip (sep : Str) :
    ∀ (pre l : Str) (acc : Str),
      pySplitGo sep (pre ++ l) pre.length acc = pySplitGo sep l 0 acc := by
  intro pre
  induction pre with
  | nil => intro l acc; simp
  | cons c pre' ih =>
    intro l acc
    simp only [List.cons_append, List.length_cons, pySplitGo]
    exact ih l acc

/-- Splitting a string that starts with the separator: emit the current
segment and continue after the separator. -/
theorem pySplitGo_at_sep (s0 : Char) (st rest acc : Str) :
    pySplitGo (s0 :: st) ((s0 :: st) ++ rest) 0 acc
      = acc.reverse :: pySplitGo (s0 :: st) rest 0 [] := by
  have hpre : List.isPrefixOf (s0 :: st) (s0 :: (st ++ rest)) = true :=
    isPrefixOf_append_self (s0 :: st) rest
  simp only [List.cons_append, pySplitGo, hpre, if_true]
  simpa using pySplitGo_skip (s0 :: st) st rest []

/-- Walking the scanner over characters that cannot start the separator. -/
theorem pySplitGo_walk (s0 : Char) (st : Str) :
    ∀ (a l acc : Str), (∀ c ∈ a, c ≠ s0) →
      pySplitGo (s0 :: st) (a ++ l) 0 acc
        = pySplitGo (s0 :: st) l 0 (a.reverse ++ acc) := by
  intro a
  induction a with
  | nil => intro l acc h; simp
  | cons c a' ih =>
    intro l acc h
    have hc : c ≠ s0 := h c (by simp)
    have hpre : List.isPrefixOf (s0 :: st) (c :: (a' ++ l)) = false := by
      simp [List.isPrefixOf]
      intro h0
      exact absurd h0.symm hc
    simp only [List.cons_append, pySplitGo, List.append_eq]
    rw [hpre]
    simp only [Bool.false_eq_true, if_false]
    rw [ih l (c :: acc) (fun x hx => h x (by simp [hx]))]
    simp

/-- A string free of the separator's first character splits into a single
segment. -/
theorem pySplitGo_no_occ (s0 : Char) (st : Str) :
    ∀ (l acc : Str), (∀ c ∈ l, c ≠ s0) →
      pySplitGo (s0 :: st) l 0 acc = [acc.reverse ++ l] := by
  intro l
  induction l with
  | nil => intro acc h; simp [pySplitGo]
  | cons c rest ih =>
    intro acc h
    have hc : c ≠ s0 := h c (by simp)
    have hpre : List.isPrefixOf (s0 :: st) (c :: rest) = false := by
      simp [List.isPrefixOf]
      intro h0
      exact absurd h0.symm hc
    simp only [pySplitGo]
    rw [hpre]
    simp only [Bool.false_eq_true, if_false]
    rw [ih (c :: acc) (fun x hx => h x (by simp [hx]))]
    simp

/-- Boolean prefix test of a string against itself extended. -/
theorem pyStartsWith_append (l m : Str) : pyStartsWith l (l ++ m) = true :=
  isPrefixOf_append_self l m

/-- The passcode extraction never raises: when the guard finds the
separator, element 1 of the split exists, and element 0 of the inner
split always exists. -/
theorem extract_passcode_exc_ok (request_line : Str) :
    exceptOk (extract_passcode_exc request_line) = true := by
  unfold extract_passcode_exc
  split
  · rename_i hc
    have hsep : pcSep = '?' :: ("passcode=".toList) := by decide
    have hlen : 2 ≤ (pySplit pcSep request_line).length := by
      rw [hsep] at hc ⊢
      unfold pySplit
      rw [if_neg (by decide)]
      exact pySplitGo_len_two '?' ("passcode=".toList) request_line [] hc
    have h1 : ∃ after, pyIndex (pySplit pcSep request_line) 1 = some after := by
      have hlt : 1 < (pySplit pcSep request_line).length := by omega
      unfold pyIndex
      exact ⟨_, List.getElem?_eq_getElem hlt⟩
    rcases h1 with ⟨after, h1⟩
    simp only [h1]
    rw [pyIndex_split_zero (" ".toList) after]
    rfl
  · rfl

/-- The request-line indexing never raises and yields request_line_of. -/
theorem request_line_index (s : Str) :
    pyIndex (pySplit crlf s) 0 = some (request_line_of s) := by
  rw [pyIndex_split_zero crlf s]
  rfl

/-- The inner try block never reaches its IndexError/ValueError
fallback: it always resolves to the dispatcher's result. -/
theorem parse_block_eq (file : List Str) (env : NetEnv) (s : Str) :
    parse_block file env s = Except.ok (dispatch file env (request_line_of s)) := by
  unfold parse_block
  rw [request_line_index s]

/-- Processing a decoded request is exactly dispatching on its request
line. -/
theorem process_request_eq (file : List Str) (env : NetEnv) (s : Str) :
    process_request file env s = dispatch file env (request_line_of s) := by
  unfold process_request
  rw [parse_block_eq]

/-! ## Claim theorems -/

/-- C1: for every configured passcode and supplied token, verify_passcode
returns true iff the token equals the configured passcode by exact string
equality, or the configured passcode is absent or empty, in which case it
returns true unconditionally (fail-open). -/
theorem c1_verify_passcode_iff (file : List Str) (t : Option Str) :
    verify_passcode file t = true ↔
      ((read_driverio_config file).passcode.getD [] = []
        ∨ t = some ((read_driverio_config file).passcode.getD [])) := by
  unfold verify_passcode
  by_cases hc : ((read_driverio_config file).passcode.getD []) = []
  · simp [hc]
  · have hne : ((read_driverio_config file).passcode.getD []).isEmpty = false := by
      simpa [List.isEmpty_iff] using hc
    simp [hne, hc]

/-- C2: for every boot or reboot request whose passcode fails the gate,
the dispatcher yields the unauthorized outcome and an empty effect
trace: no GPIO pin is configured or written, the pulse handlers are
never invoked. -/
theorem c2_unauthorized_no_pin (file : List Str) (env : NetEnv) (s : Str)
    (hroute : route (request_line_of s) = Route.boot
      ∨ route (request_line_of s) = Route.reboot)
    (hgate : verify_passcode file (extract_passcode (request_line_of s)) = false) :
    process_request file env s = (Response.responsePage ("unauthorized".toList), []) := by
  rw [process_request_eq]
  unfold dispatch
  rcases hroute with h | h <;> rw [h] <;> simp [hgate]

/-- Witness for C2: a boot request carrying passcode 000000 against
configured passcode 123456 renders unauthorized with no effect. -/
theorem c2_unauthorized_no_pin_w :
    process_request ["PASSCODE=123456".toList] netEnvExn
        ("GET /boot?passcode=000000 HTTP/1.1".toList)
      = (Response.responsePage ("unauthorized".toList), []) :=
  c2_unauthorized_no_pin ["PASSCODE=123456".toList] netEnvExn
    ("GET /boot?passcode=000000 HTTP/1.1".toList) (Or.inl (by decide)) (by decide)

/-- C3: both pulse handlers are straight-line assert-sleep-deassert
sequences: the BOOT pulse drives pin 8 high, sleeps 1.0 s (1000 ms) and
drives it low; the RESET pulse drives pin 9 high, sleeps 0.3 s (300 ms)
and drives it low; in both traces the last write to the pulsed pin is
unconditionally logic-low. -/
theorem c3_pulse_returns_low :
    handle_boot = [Effect.pinInit BOOT_PIN, Effect.pinSet BOOT_PIN 1,
      Effect.sleepMs 1000, Effect.pinSet BOOT_PIN 0]
    ∧ handle_reboot = [Effect.pinInit RUN_PIN, Effect.pinSet RUN_PIN 1,
      Effect.sleepMs 300, Effect.pinSet RUN_PIN 0]
    ∧ lastPinWrite handle_boot BOOT_PIN = some 0
    ∧ lastPinWrite handle_reboot RUN_PIN = some 0
    ∧ BOOT_PIN = 8 ∧ RUN_PIN = 9 := by
  refine ⟨rfl, rfl, by decide, by decide, rfl, rfl⟩

/-- C10: for every decoded request string, the request-line indexing,
the passcode extraction and the route dispatch never raise: element 0 of
the CRLF split always exists, the guarded passcode extraction always
resolves, the inner IndexError/ValueError fallback is unreachable (the
try block always resolves to the processed result), and a request line
matching none of the privileged prefixes routes to the dashboard with no
side effects. -/
theorem c10_parsing_never_raises (file : List Str) (env : NetEnv) (s : Str) :
    pyIndex (pySplit crlf s) 0 = some (request_line_of s)
    ∧ exceptOk (extract_passcode_exc (request_line_of s)) = true
    ∧ parse_block file env s = Except.ok (process_request file env s)
    ∧ (route (request_line_of s) = Route.dashboard →
        process_request file env s = (Response.htmlPage, [])) := by
  refine ⟨request_line_index s, extract_passcode_exc_ok (request_line_of s), ?_, ?_⟩
  · rw [parse_block_eq, process_request_eq]
  · intro hd
    rw [process_request_eq]
    unfold dispatch
    rw [hd]

/-- Witness for C10: three garbage control bytes decoded to a string are
handled without error and route to the dashboard with no side effects. -/
theorem c10_parsing_never_raises_w :
    parse_block [] netEnvExn ['\x00', '\x01', '\x02']
      = Except.ok (process_request [] netEnvExn ['\x00', '\x01', '\x02'])
    ∧ process_request [] netEnvExn ['\x00', '\x01', '\x02']
      = (Response.htmlPage, []) :=
  ⟨(c10_parsing_never_raises [] netEnvExn ['\x00', '\x01', '\x02']).2.2.1,
   (c10_parsing_never_raises [] netEnvExn ['\x00', '\x01', '\x02']).2.2.2 (by decide)⟩

/-- C4 counterexample: the HTTP method IS checked by the router.  A POST
to /boot with the correct passcode does not match the privileged boot
route (the claim says any verb matches); it falls through to the
dashboard with no side effects. -/
theorem c4_method_checked_cex :
    route ("POST /boot?passcode=123456 HTTP/1.1".toList) ≠ Route.boot
    ∧ route ("POST /boot?passcode=123456 HTTP/1.1".toList) = Route.dashboard
    ∧ process_request ["PASSCODE=123456".toList] netEnvExn
        ("POST /boot?passcode=123456 HTTP/1.1".toList)
      = (Response.htmlPage, []) := by
  refine ⟨by decide, by decide, by decide⟩

/-- C4 amended: the router classifies the request line by literal prefix
against GET /boot, GET /reboot, GET /status in priority order, so only
the GET verb can reach a privileged route; every request line matching
none of the three prefixes — any other verb, empty, unknown or malformed
lines — yields the Dashboard outcome with no side effects. -/
theorem c4_route_amended (file : List Str) (env : NetEnv) (s : Str)
    (h1 : pyStartsWith ("GET /boot".toList) (request_line_of s) = false)
    (h2 : pyStartsWith ("GET /reboot".toList) (request_line_of s) = false)
    (h3 : pyStartsWith ("GET /status".toList) (request_line_of s) = false) :
    route (request_line_of s) = Route.dashboard
    ∧ process_request file env s = (Response.htmlPage, []) := by
  have hr : route (request_line_of s) = Route.dashboard := by
    unfold route
    rw [h1, h2, h3]
    simp
  refine ⟨hr, ?_⟩
  rw [process_request_eq]
  unfold dispatch
  rw [hr]

/-- Witness for C4 amended: a DELETE on /boot routes to the dashboard
with no side effects. -/
theorem c4_route_amended_w :
    route (request_line_of ("DELETE /boot HTTP/1.1".toList)) = Route.dashboard
    ∧ process_request ["PASSCODE=123456".toList] netEnvExn
        ("DELETE /boot HTTP/1.1".toList)
      = (Response.htmlPage, []) :=
  c4_route_amended ["PASSCODE=123456".toList] netEnvExn
    ("DELETE /boot HTTP/1.1".toList) (by decide) (by decide) (by decide)

/-- C9 counterexample: the same boot request with the same token yields
the authorized outcome or the unauthorized outcome depending on the
configuration-file contents current when the request is handled — the
configuration is re-read per request, not a startup snapshot, so the
per-request components do not read values loaded once at process start. -/
theorem c9_config_read_per_request_cex :
    process_request ["PASSCODE=111111".toList] netEnvExn
        ("GET /boot?passcode=111111 HTTP/1.1".toList)
      = (Response.responsePage ("boot".toList), handle_boot)
    ∧ process_request ["PASSCODE=222222".toList] netEnvExn
        ("GET /boot?passcode=111111 HTTP/1.1".toList)
      = (Response.responsePage ("unauthorized".toList), []) :=
  ⟨by decide, by decide⟩

/-- C9 amended: the configuration file is re-read through
read_driverio_config on every passcode verification and every status
check, so each request observes the configuration as parsed from the
file contents current at request time; request handling depends on those
contents only through the parsed configuration, hence two file states
that parse to the same configuration are indistinguishable to every
request. -/
theorem c9_config_dependence (f1 f2 : List Str) (env : NetEnv) (s : Str)
    (h : read_driverio_config f1 = read_driverio_config f2) :
    process_request f1 env s = process_request f2 env s := by
  have hv : ∀ p, verify_passcode f1 p = verify_passcode f2 p := by
    intro p
    unfold verify_passcode
    rw [h]
  have hst : handle_status f1 env = handle_status f2 env := by
    unfold handle_status
    rw [h]
  rw [process_request_eq, process_request_eq]
  unfold dispatch
  cases route (request_line_of s) <;> simp [hv, hst]

/-- Witness for C9 amended: adding a comment line leaves the parsed
configuration unchanged, hence the processed request unchanged. -/
theorem c9_config_dependence_w :
    process_request ["PASSCODE=123456".toList] netEnvExn
        ("GET /boot?passcode=123456 HTTP/1.1".toList)
      = process_request ["# note".toList, "PASSCODE=123456".toList] netEnvExn
        ("GET /boot?passcode=123456 HTTP/1.1".toList) :=
  c9_config_dependence ["PASSCODE=123456".toList]
    ["# note".toList, "PASSCODE=123456".toList] netEnvExn
    ("GET /boot?passcode=123456 HTTP/1.1".toList) (by decide)

/-- C6: for every authorized status request, the outcome is the online
page iff an IP is configured (non-empty) and the connect attempt to it
on port 22 under the 5 second timeout resolves with code 0; it is the
offline page otherwise (connect failure code, exception, or no
configured IP); and the status path never produces a GPIO pin effect. -/
theorem c6_status_online_iff (file : List Str) (env : NetEnv) (s : Str)
    (hroute : route (request_line_of s) = Route.status)
    (hgate : verify_passcode file (extract_passcode (request_line_of s)) = true) :
    ((process_request file env s).1 = Response.responsePage ("status".toList)
      ↔ onlineCond file env)
    ∧ ((process_request file env s).1 = Response.responsePage ("status_offline".toList)
      ↔ ¬ onlineCond file env)
    ∧ ((process_request file env s).2.all (fun e => !isPinEffect e)) = true := by
  rw [process_request_eq]
  unfold dispatch
  rw [hroute]
  simp only [hgate, if_true]
  unfold handle_status onlineCond
  by_cases hip : ((read_driverio_config file).ip.getD []) = []
  · simp [hip]
  · have hne : ((read_driverio_config file).ip.getD []).isEmpty = false := by
      simpa [List.isEmpty_iff] using hip
    cases hce : env.connectEx ((read_driverio_config file).ip.getD []) 22 5 with
    | ok r =>
      by_cases hr : r = 0
      · simp [hne, hce, hr, hip, isPinEffect]
      · simp [hne, hce, hr, hip, isPinEffect]
    | exn => simp [hne, hce, hip, isPinEffect]

/-- Witness for C6: with a configured IP and a network on which the
connect succeeds with code 0, an authorized status request renders the
online page with no pin effect. -/
theorem c6_status_online_iff_w :
    ((process_request ["DRIVERIO_IP=10.0.0.5".toList] netEnvOk
        ("GET /status HTTP/1.1".toList)).1
      = Response.responsePage ("status".toList)
      ↔ onlineCond ["DRIVERIO_IP=10.0.0.5".toList] netEnvOk)
    ∧ ((process_request ["DRIVERIO_IP=10.0.0.5".toList] netEnvOk
        ("GET /status HTTP/1.1".toList)).1
      = Response.responsePage ("status_offline".toList)
      ↔ ¬ onlineCond ["DRIVERIO_IP=10.0.0.5".toList] netEnvOk)
    ∧ ((process_request ["DRIVERIO_IP=10.0.0.5".toList] netEnvOk
        ("GET /status HTTP/1.1".toList)).2.all (fun e => !isPinEffect e)) = true :=
  c6_status_online_iff ["DRIVERIO_IP=10.0.0.5".toList] netEnvOk
    ("GET /status HTTP/1.1".toList) (by decide) (by decide)

/-- C7: the accept loop survives every finite schedule of connection
events, including arbitrarily many failing or garbage ones: every event
is processed (one iteration per event), every iteration lets the loop
continue, never closes the listening socket, and closes any client it
accepted before moving on. -/
theorem c7_accept_loop_survives (file : List Str) (env : NetEnv)
    (evs : List ConnEvent) :
    (run_server file env evs).length = evs.length
    ∧ (run_server file env evs).all
        (fun o => o.continues && !o.serverSocketClosed
          && (!o.clientOpened || o.clientClosed)) = true := by
  constructor
  · simp [run_server]
  · unfold run_server
    rw [List.all_eq_true]
    intro o ho
    rcases List.mem_map.mp ho with ⟨ev, _, rfl⟩
    cases ev with
    | acceptFail => rfl
    | conn r =>
      cases r with
      | recvFail => rfl
      | bytes bs sOk =>
        simp only [serve_step]
        cases hu : utf8Decode bs with
        | none => simp [hu]
        | some req => cases sOk <;> simp [hu]

/-- C8 counterexample: a connection whose received bytes are not valid
UTF-8 (a single 0xFF byte) is closed with NO response written — the
decode raises before any response is built, falsifying the claim that
every accepted connection gets a well-formed HTML response. -/
theorem c8_silent_close_cex :
    (serve_step [] netEnvExn (ConnEvent.conn (RecvResult.bytes [255] true))).responded
      = none
    ∧ (serve_step [] netEnvExn (ConnEvent.conn (RecvResult.bytes [255] true))).clientClosed
      = true :=
  ⟨rfl, rfl⟩

/-- C8 amended: every response the server does produce begins with the
fixed status 200, Content-Type text/html, Connection close header — no
other status line is ever produced, even for unknown paths; and for
every accepted connection whose bytes decode as UTF-8 and whose send
succeeds, the server writes exactly that header plus the rendered
outcome page before closing; a connection whose bytes fail UTF-8
decoding, or whose read or send fails, is closed without any response. -/
theorem c8_responses_well_formed :
    (∀ (file : List Str) (env : NetEnv) (ev : ConnEvent) (r : Str),
        (serve_step file env ev).responded = some r →
          pyStartsWith HTTP_HEADER r = true)
    ∧ (∀ (file : List Str) (env : NetEnv) (bs : List Nat) (req : Str),
        utf8Decode bs = some req →
          (serve_step file env (ConnEvent.conn (RecvResult.bytes bs true))).responded
            = some (HTTP_HEADER ++ render (process_request file env req).1)) := by
  constructor
  · intro file env ev r h
    cases ev with
    | acceptFail => simp [serve_step] at h
    | conn rr =>
      cases rr with
      | recvFail => simp [serve_step] at h
      | bytes bs sOk =>
        unfold serve_step at h
        cases hu : utf8Decode bs with
        | none => simp only [hu] at h; simp at h
        | some req =>
          simp only [hu] at h
          cases sOk with
          | false => simp at h
          | true =>
            simp only [if_true] at h
            have hr : HTTP_HEADER ++ render (process_request file env req).1 = r := by
              simpa using h
            rw [← hr]
            exact pyStartsWith_append HTTP_HEADER (render (process_request file env req).1)
  · intro file env bs req h
    unfold serve_step
    simp [h]

/-- Witness for C8 amended: an ASCII dashboard request is answered with
the fixed header plus the rendered dashboard page. -/
theorem c8_responses_well_formed_w :
    (serve_step [] netEnvExn
        (ConnEvent.conn (RecvResult.bytes ("GET / HTTP/1.1".toList.map Char.toNat) true))).responded
      = some (HTTP_HEADER ++ render (process_request [] netEnvExn ("GET / HTTP/1.1".toList)).1) :=
  c8_responses_well_formed.2 [] netEnvExn ("GET / HTTP/1.1".toList.map Char.toNat)
    ("GET / HTTP/1.1".toList) (by decide)

/-- C5 counterexample: the extracted token is NOT cut at the next
ampersand: for a boot request carrying passcode 123456 followed by a
second query parameter, the compared token is the whole run up to the
next space, 123456&x=1, so the correct passcode followed by additional
parameters fails verification. -/
theorem c5_token_runs_to_space_cex :
    extract_passcode ("GET /boot?passcode=123456&x=1 HTTP/1.1".toList)
      = some ("123456&x=1".toList)
    ∧ ("123456&x=1".toList : Str) ≠ ("123456".toList : Str)
    ∧ process_request ["PASSCODE=123456".toList] netEnvExn
        ("GET /boot?passcode=123456&x=1 HTTP/1.1".toList)
      = (Response.responsePage ("unauthorized".toList), []) := by
  refine ⟨by decide, by decide, by decide⟩

/-- C5 amended: the request line is not split on ampersands at all; the
token handed to the passcode gate is the entire substring after
"?passcode=" up to the next space (or end of line), so any
additional query parameters after passcode become part of the compared
token.  Stated for boot request lines whose token is free of spaces and
question marks. -/
theorem c5_token_amended (tok : Str)
    (hq : ∀ c ∈ tok, c ≠ '?') (hs : ∀ c ∈ tok, c ≠ ' ') :
    extract_passcode (("GET /boot?passcode=".toList) ++ tok ++ (" HTTP/1.1".toList))
      = some tok := by
  have hshape : ("GET /boot?passcode=".toList : Str) ++ tok ++ (" HTTP/1.1".toList)
      = ("GET /boot".toList : Str)
          ++ (('?' :: ("passcode=".toList)) ++ (tok ++ (" HTTP/1.1".toList))) := by
    have h0 : ("GET /boot?passcode=".toList : Str)
        = ("GET /boot".toList : Str) ++ ('?' :: ("passcode=".toList)) := by decide
    rw [h0]
    simp [List.append_assoc]
  have hpc : pcSep = '?' :: ("passcode=".toList) := by decide
  have hcontains : pyContains pcSep
      (("GET /boot?passcode=".toList) ++ tok ++ (" HTTP/1.1".toList)) = true := by
    rw [hshape, hpc]
    exact pyContains_append_sep '?' ("passcode=".toList) ("GET /boot".toList)
      (tok ++ (" HTTP/1.1".toList))
  have hnoocc : ∀ c ∈ tok ++ (" HTTP/1.1".toList), c ≠ '?' := by
    intro c hcmem
    rcases List.mem_append.mp hcmem with hmem | hmem
    · exact hq c hmem
    · exact (by decide : ∀ c ∈ (" HTTP/1.1".toList : Str), c ≠ '?') c hmem
  have hsplit1 : pySplit pcSep
      (("GET /boot?passcode=".toList) ++ tok ++ (" HTTP/1.1".toList))
      = [("GET /boot".toList : Str), tok ++ (" HTTP/1.1".toList)] := by
    rw [hshape]
    unfold pySplit
    rw [if_neg (by decide), hpc]
    rw [pySplitGo_walk '?' ("passcode=".toList) ("GET /boot".toList)
      (('?' :: ("passcode=".toList)) ++ (tok ++ (" HTTP/1.1".toList))) [] (by decide)]
    rw [pySplitGo_at_sep '?' ("passcode=".toList) (tok ++ (" HTTP/1.1".toList))
      (("GET /boot".toList).reverse ++ [])]
    rw [pySplitGo_no_occ '?' ("passcode=".toList) (tok ++ (" HTTP/1.1".toList)) [] hnoocc]
    simp
  have hsplit2 : pySplit (" ".toList) (tok ++ (" HTTP/1.1".toList))
      = tok :: pySplitGo (' ' :: []) ("HTTP/1.1".toList) 0 [] := by
    have hsp : (" HTTP/1.1".toList : Str)
        = ((' ' :: []) : Str) ++ ("HTTP/1.1".toList) := by decide
    have h1 : (" ".toList : Str) = ' ' :: [] := by decide
    unfold pySplit
    rw [if_neg (by decide), h1, hsp]
    rw [← List.append_assoc]
    rw [show (tok ++ (' ' :: []) : Str) ++ ("HTTP/1.1".toList)
        = tok ++ (((' ' :: []) : Str) ++ ("HTTP/1.1".toList)) from by simp]
    rw [pySplitGo_walk ' ' [] tok (((' ' :: []) : Str) ++ ("HTTP/1.1".toList)) [] hs]
    rw [pySplitGo_at_sep ' ' [] ("HTTP/1.1".toList) (tok.reverse ++ [])]
    simp
  unfold extract_passcode extract_passcode_exc
  rw [if_pos hcontains, hsplit1]
  simp only [pyIndex, List.getElem?_cons_succ, List.getElem?_cons_zero]
  rw [hsplit2]
  simp

/-- Witness for C5 amended: the token 123456&x=1 — carrying a second
query parameter — is extracted whole. -/
theorem c5_token_amended_w :
    extract_passcode (("GET /boot?passcode=".toList)
        ++ ("123456&x=1".toList) ++ (" HTTP/1.1".toList))
      = some ("123456&x=1".toList) :=
  c5_token_amended ("123456&x=1".toList) (by decide) (by decide)
